import Mathlib

/-!
Verification of the i18n layer and blog content invariants of a personal
portfolio/blog static site.  The i18n module (src/i18n/translations.ts)
exposes a two-level translation table (locale code ↦ key ↦ localized text),
a lookup with default-locale fallback (`useTranslations`), locale detection
from a URL pathname (`getLangFromUrl`), and locale-prefixed route building
(`getLocalizedPath`).  Blog posts are Markdown documents with a front-matter
block.  All definitions below are shallow embeddings of that code and data;
JS `undefined` is modelled as `none`.
-/

set_option autoImplicit false

namespace Site

/-- JS property access on an object literal, viewed as an association list
(first match wins; every embedded object has pairwise-distinct keys, so the
order of search is irrelevant). -/
def alookup {α : Type} : List (String × α) → String → Option α
  | [], _ => none
  | (k, v) :: rest, key => if k = key then some v else alookup rest key

/-- JS `a || b` on string-or-undefined values: `b` when `a` is `undefined`
(`none`) or the empty string (both falsy), otherwise `a`. -/
def jsOr (a b : Option String) : Option String :=
  match a with
  | some v => if v = "" then b else some v
  | none => b
/-- The `en` object of `translations` in src/i18n/translations.ts, as an association list. -/
def enTable : List (String × String) := [
  ("nav.home", "Home"),
  ("nav.about", "About"),
  ("nav.blog", "Blog"),
  ("nav.projects", "Projects"),
  ("hero.greeting", "Hi, I'm"),
  ("hero.name", "Varij Kapil"),
  ("hero.title", "Head of Backend Engineering & Operations"),
  ("hero.location", "Bonn, Germany"),
  ("hero.description", "I transform legacy systems into scalable, multi-tenant SaaS platforms using Kubernetes and cloud-native architecture."),
  ("hero.cta.about", "Learn more about me"),
  ("hero.cta.blog", "Read my blog"),
  ("hero.social", "Find me on"),
  ("skills.title", "Technical"),
  ("skills.titleHighlight", "Skills"),
  ("skills.languages", "Languages"),
  ("skills.frameworks", "Frameworks"),
  ("skills.platform", "Platform & Cloud"),
  ("skills.tools", "Tools"),
  ("skills.legend.expert", "Expert / Daily use"),
  ("skills.legend.advanced", "Advanced"),
  ("skills.legend.intermediate", "Familiar"),
  ("blog.title", "Latest from the"),
  ("blog.titleHighlight", "Blog"),
  ("blog.viewAll", "View all posts"),
  ("cta.title", "Let's Connect"),
  ("cta.description", "Feel free to reach out if you'd like to discuss technology, share ideas, or just say hello."),
  ("cta.contact", "Get in touch"),
  ("cta.github", "View GitHub"),
  ("footer.rights", "All rights reserved."),
  ("about.title", "About"),
  ("about.titleHighlight", "Me"),
  ("about.intro", "Hi, I'm"),
  ("about.experience", "with"),
  ("about.yearsExp", "10+ years"),
  ("about.expText", "of experience in software development. Currently based in"),
  ("about.location", "Bonn, Germany"),
  ("about.description1", "I lead backend engineering and operations teams through complex platform transformations—turning legacy, single-tenant systems into scalable, globally distributed"),
  ("about.multiTenant", "multi-tenant SaaS architectures"),
  ("about.description2", "My focus areas include"),
  ("about.cloudNative", "cloud-native architecture"),
  ("about.description3", ", multi-tenancy patterns,"),
  ("about.kubernetes", "Kubernetes"),
  ("about.description4", ", platform operations, and guiding teams through both the technical and organizational shifts that SaaSification demands."),
  ("about.yearsExperience", "Years Experience"),
  ("about.engineersLed", "Engineers Led"),
  ("about.countriesWorked", "Countries Worked"),
  ("about.whatIDo", "What I"),
  ("about.do", "Do"),
  ("about.platformMod", "Platform Modernization"),
  ("about.platformModDesc", "Transforming legacy monoliths into microservices using domain-driven design, strangler fig pattern, and modern frameworks like Quarkus."),
  ("about.k8sCloud", "Kubernetes & Cloud-Native"),
  ("about.k8sCloudDesc", "Building multi-tenant SaaS on Kubernetes with namespace-per-tenant isolation, geo-replicated infrastructure for global availability."),
  ("about.security", "Security & Compliance"),
  ("about.securityDesc", "HashiCorp Vault for secrets management, automated credential rotation. Driving compliance with GDPR, TISAX, and ISO 27001."),
  ("about.gitops", "GitOps & Observability"),
  ("about.gitopsDesc", "GitOps practices with Pulumi and Helm. Comprehensive observability with distributed tracing and metrics across all services."),
  ("about.engineering", "Engineering Excellence"),
  ("about.engineeringDesc", "AI-driven code reviews with Claude and Qodana. ADRs for architectural decisions. Platform documentation using arc42."),
  ("about.teamDev", "Team & Org Development"),
  ("about.teamDevDesc", "Restructuring organizations using Team Topologies. Scaling teams through direct and offshore hiring. Leading team leads."),
  ("about.techSkills", "Technical"),
  ("about.skills", "Skills"),
  ("about.languages", "Languages"),
  ("about.frameworks", "Frameworks"),
  ("about.platformCloud", "Platform & Cloud"),
  ("about.toolsDevops", "Tools & DevOps"),
  ("about.expert", "Expert / Daily use"),
  ("about.proficient", "Proficient"),
  ("about.workExp", "Work"),
  ("about.experience2", "Experience"),
  ("about.education", "Education"),
  ("about.certifications", "Certifications"),
  ("about.uniProjects", "University"),
  ("about.projects", "Projects"),
  ("about.beyondCode", "Beyond"),
  ("about.code", "Code"),
  ("about.letsConnect", "Let's Connect"),
  ("about.connectText", "Feel free to connect with me on LinkedIn or check out my projects on GitHub. I enjoy discussing technology and sharing knowledge with the community."),
  ("about.getInTouch", "Get in Touch"),
  ("projects.title", "Personal"),
  ("projects.titleHighlight", "Projects"),
  ("projects.description", "A collection of side projects and experiments I've built over the years to solve problems or learn new technologies."),
  ("projects.wantMore", "Want to see more?"),
  ("projects.ctaText", "Check out my GitHub profile for more projects, contributions, and code samples."),
  ("projects.viewGithub", "View GitHub Profile")]

/-- The `de` object of `translations` in src/i18n/translations.ts, as an association list. -/
def deTable : List (String × String) := [
  ("nav.home", "Startseite"),
  ("nav.about", "Über mich"),
  ("nav.blog", "Blog"),
  ("nav.projects", "Projekte"),
  ("hero.greeting", "Hallo, ich bin"),
  ("hero.name", "Varij Kapil"),
  ("hero.title", "Head of Backend Engineering & Operations"),
  ("hero.location", "Bonn, Deutschland"),
  ("hero.description", "Ich transformiere Legacy-Systeme in skalierbare, mandantenfähige SaaS-Plattformen mit Kubernetes und Cloud-nativer Architektur."),
  ("hero.cta.about", "Mehr über mich"),
  ("hero.cta.blog", "Zum Blog"),
  ("hero.social", "Finde mich auf"),
  ("skills.title", "Technische"),
  ("skills.titleHighlight", "Fähigkeiten"),
  ("skills.languages", "Sprachen"),
  ("skills.frameworks", "Frameworks"),
  ("skills.platform", "Plattform & Cloud"),
  ("skills.tools", "Tools"),
  ("skills.legend.expert", "Experte / Tägliche Nutzung"),
  ("skills.legend.advanced", "Fortgeschritten"),
  ("skills.legend.intermediate", "Vertraut"),
  ("blog.title", "Neueste"),
  ("blog.titleHighlight", "Blogbeiträge"),
  ("blog.viewAll", "Alle Beiträge"),
  ("cta.title", "Kontakt aufnehmen"),
  ("cta.description", "Schreib mir gerne, wenn du über Technologie diskutieren, Ideen austauschen oder einfach Hallo sagen möchtest."),
  ("cta.contact", "Kontakt"),
  ("cta.github", "GitHub ansehen"),
  ("footer.rights", "Alle Rechte vorbehalten."),
  ("about.title", "Über"),
  ("about.titleHighlight", "Mich"),
  ("about.intro", "Hallo, ich bin"),
  ("about.experience", "mit"),
  ("about.yearsExp", "10+ Jahren"),
  ("about.expText", "Erfahrung in der Softwareentwicklung. Derzeit wohnhaft in"),
  ("about.location", "Bonn, Deutschland"),
  ("about.description1", "Ich leite Backend-Engineering- und Operations-Teams durch komplexe Plattformtransformationen – von veralteten Single-Tenant-Systemen zu skalierbaren, global verteilten"),
  ("about.multiTenant", "mandantenfähigen SaaS-Architekturen"),
  ("about.description2", "Meine Schwerpunkte sind"),
  ("about.cloudNative", "Cloud-native Architektur"),
  ("about.description3", ", Multi-Tenancy-Muster,"),
  ("about.kubernetes", "Kubernetes"),
  ("about.description4", ", Plattform-Operations und die Begleitung von Teams durch technische und organisatorische Veränderungen, die eine SaaS-Transformation erfordert."),
  ("about.yearsExperience", "Jahre Erfahrung"),
  ("about.engineersLed", "Ingenieure geleitet"),
  ("about.countriesWorked", "Länder gearbeitet"),
  ("about.whatIDo", "Was ich"),
  ("about.do", "mache"),
  ("about.platformMod", "Plattform-Modernisierung"),
  ("about.platformModDesc", "Transformation von Legacy-Monolithen zu Microservices mit Domain-Driven Design, Strangler-Fig-Pattern und modernen Frameworks wie Quarkus."),
  ("about.k8sCloud", "Kubernetes & Cloud-Native"),
  ("about.k8sCloudDesc", "Aufbau von mandantenfähigen SaaS-Plattformen auf Kubernetes mit Namespace-per-Tenant-Isolation und geo-replizierter Infrastruktur."),
  ("about.security", "Sicherheit & Compliance"),
  ("about.securityDesc", "HashiCorp Vault für Secrets-Management, automatisierte Credential-Rotation. Einhaltung von GDPR, TISAX und ISO 27001."),
  ("about.gitops", "GitOps & Observability"),
  ("about.gitopsDesc", "GitOps-Praktiken mit Pulumi und Helm. Umfassende Observability mit verteiltem Tracing und Metriken über alle Services."),
  ("about.engineering", "Engineering Excellence"),
  ("about.engineeringDesc", "KI-gestützte Code-Reviews mit Claude und Qodana. ADRs für Architekturentscheidungen. Plattform-Dokumentation mit arc42."),
  ("about.teamDev", "Team- & Org-Entwicklung"),
  ("about.teamDevDesc", "Organisationsrestrukturierung mit Team Topologies. Teamskalierung durch direkte und Offshore-Einstellungen. Führung von Teamleitern."),
  ("about.techSkills", "Technische"),
  ("about.skills", "Fähigkeiten"),
  ("about.languages", "Sprachen"),
  ("about.frameworks", "Frameworks"),
  ("about.platformCloud", "Plattform & Cloud"),
  ("about.toolsDevops", "Tools & DevOps"),
  ("about.expert", "Experte / Tägliche Nutzung"),
  ("about.proficient", "Fortgeschritten"),
  ("about.workExp", "Berufs"),
  ("about.experience2", "erfahrung"),
  ("about.education", "Ausbildung"),
  ("about.certifications", "Zertifizierungen"),
  ("about.uniProjects", "Universitäts"),
  ("about.projects", "projekte"),
  ("about.beyondCode", "Über den"),
  ("about.code", "Code hinaus"),
  ("about.letsConnect", "Kontakt aufnehmen"),
  ("about.connectText", "Verbinde dich gerne mit mir auf LinkedIn oder schau dir meine Projekte auf GitHub an. Ich freue mich über Diskussionen über Technologie und Wissensaustausch."),
  ("about.getInTouch", "Kontakt"),
  ("projects.title", "Persönliche"),
  ("projects.titleHighlight", "Projekte"),
  ("projects.description", "Eine Sammlung von Nebenprojekten und Experimenten, die ich im Laufe der Jahre gebaut habe, um Probleme zu lösen oder neue Technologien zu lernen."),
  ("projects.wantMore", "Mehr sehen?"),
  ("projects.ctaText", "Schau dir mein GitHub-Profil für weitere Projekte, Beiträge und Code-Beispiele an."),
  ("projects.viewGithub", "GitHub-Profil ansehen")]

/-- The `hi` object of `translations` in src/i18n/translations.ts, as an association list. -/
def hiTable : List (String × String) := [
  ("nav.home", "होम"),
  ("nav.about", "मेरे बारे में"),
  ("nav.blog", "ब्लॉग"),
  ("nav.projects", "प्रोजेक्ट्स"),
  ("hero.greeting", "नमस्ते, मैं हूँ"),
  ("hero.name", "वारिज कपिल"),
  ("hero.title", "Head of Backend Engineering & Operations"),
  ("hero.location", "बॉन, जर्मनी"),
  ("hero.description", "मैं Kubernetes और क्लाउड-नेटिव आर्किटेक्चर का उपयोग करके लीगेसी सिस्टम को स्केलेबल, मल्टी-टेनेंट SaaS प्लेटफॉर्म में बदलता हूँ।"),
  ("hero.cta.about", "मेरे बारे में जानें"),
  ("hero.cta.blog", "ब्लॉग पढ़ें"),
  ("hero.social", "मुझे यहाँ खोजें"),
  ("skills.title", "तकनीकी"),
  ("skills.titleHighlight", "कौशल"),
  ("skills.languages", "भाषाएं"),
  ("skills.frameworks", "फ्रेमवर्क"),
  ("skills.platform", "प्लेटफॉर्म और क्लाउड"),
  ("skills.tools", "टूल्स"),
  ("skills.legend.expert", "विशेषज्ञ / दैनिक उपयोग"),
  ("skills.legend.advanced", "उन्नत"),
  ("skills.legend.intermediate", "परिचित"),
  ("blog.title", "नवीनतम"),
  ("blog.titleHighlight", "ब्लॉग पोस्ट"),
  ("blog.viewAll", "सभी पोस्ट देखें"),
  ("cta.title", "संपर्क करें"),
  ("cta.description", "अगर आप तकनीक पर चर्चा करना चाहते हैं, विचार साझा करना चाहते हैं, या बस नमस्ते कहना चाहते हैं, तो बेझिझक संपर्क करें।"),
  ("cta.contact", "संपर्क करें"),
  ("cta.github", "GitHub देखें"),
  ("footer.rights", "सर्वाधिकार सुरक्षित।"),
  ("about.title", "मेरे"),
  ("about.titleHighlight", "बारे में"),
  ("about.intro", "नमस्ते, मैं हूँ"),
  ("about.experience", "के साथ"),
  ("about.yearsExp", "10+ वर्षों"),
  ("about.expText", "का सॉफ्टवेयर डेवलपमेंट का अनुभव। वर्तमान में"),
  ("about.location", "बॉन, जर्मनी"),
  ("about.description1", "मैं बैकएंड इंजीनियरिंग और ऑपरेशंस टीमों का नेतृत्व करता हूँ जटिल प्लेटफॉर्म ट्रांसफॉर्मेशन के माध्यम से—लीगेसी, सिंगल-टेनेंट सिस्टम को स्केलेबल, वैश्विक रूप से वितरित"),
  ("about.multiTenant", "मल्टी-टेनेंट SaaS आर्किटेक्चर"),
  ("about.description2", "मेरे फोकस क्षेत्रों में शामिल हैं"),
  ("about.cloudNative", "क्लाउड-नेटिव आर्किटेक्चर"),
  ("about.description3", ", मल्टी-टेनेंसी पैटर्न,"),
  ("about.kubernetes", "Kubernetes"),
  ("about.description4", ", प्लेटफॉर्म ऑपरेशंस, और टीमों को SaaSification के लिए आवश्यक तकनीकी और संगठनात्मक बदलावों के माध्यम से मार्गदर्शन।"),
  ("about.yearsExperience", "वर्षों का अनुभव"),
  ("about.engineersLed", "इंजीनियरों का नेतृत्व"),
  ("about.countriesWorked", "देशों में काम किया"),
  ("about.whatIDo", "मैं क्या"),
  ("about.do", "करता हूँ"),
  ("about.platformMod", "प्लेटफॉर्म आधुनिकीकरण"),
  ("about.platformModDesc", "डोमेन-ड्रिवन डिज़ाइन, स्ट्रैंगलर फिग पैटर्न, और Quarkus जैसे आधुनिक फ्रेमवर्क का उपयोग करके लीगेसी मोनोलिथ को माइक्रोसर्विसेज में बदलना।"),
  ("about.k8sCloud", "Kubernetes और क्लाउड-नेटिव"),
  ("about.k8sCloudDesc", "नेमस्पेस-प्रति-टेनेंट आइसोलेशन, वैश्विक उपलब्धता के लिए जियो-रेप्लिकेटेड इन्फ्रास्ट्रक्चर के साथ Kubernetes पर मल्टी-टेनेंट SaaS बनाना।"),
  ("about.security", "सुरक्षा और अनुपालन"),
  ("about.securityDesc", "सीक्रेट्स मैनेजमेंट के लिए HashiCorp Vault, स्वचालित क्रेडेंशियल रोटेशन। GDPR, TISAX, और ISO 27001 अनुपालन।"),
  ("about.gitops", "GitOps और Observability"),
  ("about.gitopsDesc", "Pulumi और Helm के साथ GitOps प्रैक्टिस। सभी सर्विसेज में डिस्ट्रिब्यूटेड ट्रेसिंग और मेट्रिक्स के साथ व्यापक observability।"),
  ("about.engineering", "इंजीनियरिंग एक्सीलेंस"),
  ("about.engineeringDesc", "Claude और Qodana के साथ AI-ड्रिवन कोड रिव्यू। आर्किटेक्चर निर्णयों के लिए ADRs। arc42 का उपयोग करके प्लेटफॉर्म डॉक्यूमेंटेशन।"),
  ("about.teamDev", "टीम और संगठन विकास"),
  ("about.teamDevDesc", "Team Topologies का उपयोग करके संगठनों का पुनर्गठन। डायरेक्ट और ऑफशोर हायरिंग के माध्यम से टीमों का स्केलिंग। टीम लीड्स का नेतृत्व।"),
  ("about.techSkills", "तकनीकी"),
  ("about.skills", "कौशल"),
  ("about.languages", "भाषाएं"),
  ("about.frameworks", "फ्रेमवर्क"),
  ("about.platformCloud", "प्लेटफॉर्म और क्लाउड"),
  ("about.toolsDevops", "टूल्स और DevOps"),
  ("about.expert", "विशेषज्ञ / दैनिक उपयोग"),
  ("about.proficient", "कुशल"),
  ("about.workExp", "कार्य"),
  ("about.experience2", "अनुभव"),
  ("about.education", "शिक्षा"),
  ("about.certifications", "प्रमाणपत्र"),
  ("about.uniProjects", "विश्वविद्यालय"),
  ("about.projects", "प्रोजेक्ट्स"),
  ("about.beyondCode", "कोड से"),
  ("about.code", "परे"),
  ("about.letsConnect", "संपर्क करें"),
  ("about.connectText", "LinkedIn पर मुझसे जुड़ें या GitHub पर मेरे प्रोजेक्ट्स देखें। मुझे तकनीक पर चर्चा करना और समुदाय के साथ ज्ञान साझा करना पसंद है।"),
  ("about.getInTouch", "संपर्क करें"),
  ("projects.title", "व्यक्तिगत"),
  ("projects.titleHighlight", "प्रोजेक्ट्स"),
  ("projects.description", "वर्षों में समस्याओं को हल करने या नई तकनीकों को सीखने के लिए बनाए गए साइड प्रोजेक्ट्स और प्रयोगों का संग्रह।"),
  ("projects.wantMore", "और देखना चाहते हैं?"),
  ("projects.ctaText", "अधिक प्रोजेक्ट्स, योगदान, और कोड सैंपल्स के लिए मेरी GitHub प्रोफाइल देखें।"),
  ("projects.viewGithub", "GitHub प्रोफाइल देखें")]
/-- The `languages` object of src/i18n/translations.ts. -/
def languages : List (String × String) :=
  [("en", "English"), ("de", "Deutsch"), ("hi", "हिन्दी")]

/-- The `defaultLang` constant of src/i18n/translations.ts. -/
def defaultLang : String := "en"

/-- The `translations` object of src/i18n/translations.ts: locale code ↦
(key ↦ localized text). -/
def translations : List (String × List (String × String)) :=
  [("en", enTable), ("de", deTable), ("hi", hiTable)]

/-- The locale codes of the translation table. -/
def locales : List String := translations.map Prod.fst

/-- The per-locale table `tbl[lang]`.  The TS signature of `useTranslations`
restricts `lang` to the keys of the table, so the `[]` default is never
reached by the program; theorems that rely on an actual table carry a
`lang ∈ locales` hypothesis. -/
def tableOfIn (tbl : List (String × List (String × String))) (lang : String) :
    List (String × String) :=
  (alookup tbl lang).getD []

/-- The per-locale table of the shipped `translations` object. -/
def tableOf (lang : String) : List (String × String) := tableOfIn translations lang

/-- The body of `useTranslations` of src/i18n/translations.ts over an arbitrary
two-level table: `t(key) = tbl[lang][key] || tbl[defaultLang][key]`. -/
def useTranslationsTable (tbl : List (String × List (String × String)))
    (lang key : String) : Option String :=
  jsOr (alookup (tableOfIn tbl lang) key) (alookup (tableOfIn tbl defaultLang) key)

/-- The lookup `useTranslations(lang)` of src/i18n/translations.ts applied to
`key`: `translations[lang][key] || translations[defaultLang][key]`.  JS
`undefined` is `none`. -/
def useTranslations (lang key : String) : Option String :=
  useTranslationsTable translations lang key

/-- JS `s.split(sep)` for a one-character separator, on the character list. -/
def splitChar (sep : Char) : List Char → List (List Char)
  | [] => [[]]
  | c :: rest =>
    if c = sep then [] :: splitChar sep rest
    else
      match splitChar sep rest with
      | [] => [[c]]
      | r :: rs => (c :: r) :: rs

/-- The function `getLangFromUrl` of src/i18n/translations.ts, on the URL's
pathname: `const [, lang] = url.pathname.split('/')` followed by
`if (lang in translations) return lang; return defaultLang`.  A destructuring
that yields no second element gives JS `undefined`, which is not a key of
`translations`, so that case also returns `defaultLang`. -/
def getLangFromUrl (pathname : String) : String :=
  match splitChar '/' pathname.data with
  | _ :: lang :: _ =>
    if (translations.map Prod.fst).contains (String.mk lang) then String.mk lang
    else defaultLang
  | _ => defaultLang

/-- The function `getLocalizedPath` of src/i18n/translations.ts. -/
def getLocalizedPath (path lang : String) : String :=
  if lang = defaultLang then path else "/" ++ lang ++ path

/-- Boolean list-level test that the first list is an initial segment of the
second. -/
def leadsWith : List Char → List Char → Bool
  | [], _ => true
  | _ :: _, [] => false
  | a :: as, b :: bs => a = b && leadsWith as bs

/-- Front-matter field extraction: the value of the first front-matter line of
the form `field: value` (the YAML scalar fields the blog posts use). -/
def fmLookup (lines : List String) (field : String) : Option String :=
  lines.findSome? (fun l =>
    if leadsWith (field ++ ":").data l.data then
      some ((l.drop (field.length + 1)).trim)
    else none)

/-- The blog post files of the repository whose file names are known (the
legacy Jekyll post under `_posts/` and the content-collection posts under
`src/content/blog/`). -/
def blogPostFilenames : List String :=
  ["2020-05-14-resizable-arrays-arraylist.md",
   "gitlab-cicd-java-react.md",
   "gitops-pulumi-helm.md",
   "kubernetes-multi-tenant-saas.md",
   "observability-distributed-systems.md",
   "postgresql-performance-tuning.md",
   "quarkus-migration-javaee.md",
   "react-patterns-enterprise.md",
   "reverse-string-java.md"]

/-- The slug of a blog post file: the file name without its extension. -/
def slugOf (f : String) : String :=
  match f.data.reverse.dropWhile (fun c => c ≠ '.') with
  | [] => f
  | _ :: rest => String.mk rest.reverse

/-- The first path segment a URL pathname names: the characters after the
leading `/` up to (not including) the next `/`. -/
def firstSegmentSpec (p : String) : String :=
  String.mk ((p.data.drop 1).takeWhile (fun c => c ≠ '/'))
/-- Every blog post document in the repository, as (path, front-matter lines).
The last five documents are repository blog posts whose file names are unknown. -/
def blogDocs : List (String × List String) := [
  ("_posts/2020-05-14-resizable-arrays-arraylist.md",
   ["tags: basics beginner",
    "title: What are resizable arrays and an ArrayList?"]),
  ("src/content/blog/gitlab-cicd-java-react.md",
   ["title: \"Building a Robust CI/CD Pipeline with GitLab for Java and React\"",
    "description: \"How we built continuous integration and deployment workflows for a full-stack application using GitLab CI/CD.\"",
    "date: 2024-07-10",
    "tags: [\"devops\", \"gitlab\", \"cicd\", \"java\", \"react\"]"]),
  ("src/content/blog/gitops-pulumi-helm.md",
   ["title: \"GitOps with Pulumi and Helm: Our Setup\"",
    "description: \"How we implemented GitOps for infrastructure and application deployment using Pulumi and Helm.\"",
    "date: 2023-11-15",
    "tags: [\"gitops\", \"pulumi\", \"helm\", \"kubernetes\", \"devops\"]"]),
  ("src/content/blog/kubernetes-multi-tenant-saas.md",
   ["title: \"What I Learned Building Multi-Tenant SaaS on Kubernetes\"",
    "description: \"Hard-won lessons from migrating a VM-per-customer architecture to shared Kubernetes clusters with namespace isolation.\"",
    "date: 2024-02-28",
    "tags: [\"kubernetes\", \"saas\", \"multi-tenancy\", \"architecture\"]"]),
  ("src/content/blog/observability-distributed-systems.md",
   ["title: \"Building Observability into Distributed Systems\"",
    "description: \"Practical approaches to logging, metrics, and tracing that helped us understand our microservices.\"",
    "date: 2022-11-20",
    "tags: [\"observability\", \"monitoring\", \"microservices\", \"distributed-systems\"]"]),
  ("src/content/blog/postgresql-performance-tuning.md",
   ["title: \"PostgreSQL Performance Tuning: A Practical Guide\"",
    "description: \"Real-world PostgreSQL optimization techniques that made a significant difference in our enterprise applications.\"",
    "date: 2024-08-15",
    "tags: [\"postgresql\", \"database\", \"performance\", \"optimization\"]"]),
  ("src/content/blog/quarkus-migration-javaee.md",
   ["title: \"Why We Moved from Java EE to Quarkus (And What Broke)\"",
    "description: \"Our journey migrating a monolithic Java EE application to Quarkus microservices, including the parts that didn't go smoothly.\"",
    "date: 2023-08-22",
    "tags: [\"quarkus\", \"java\", \"microservices\", \"migration\"]"]),
  ("src/content/blog/react-patterns-enterprise.md",
   ["title: \"React Patterns That Scale: Lessons from Enterprise Development\"",
    "description: \"Practical React patterns and architecture decisions for building maintainable enterprise applications.\"",
    "date: 2024-12-01",
    "tags: [\"react\", \"javascript\", \"frontend\", \"architecture\"]"]),
  ("src/content/blog/reverse-string-java.md",
   ["title: \"How to Reverse a String in Java\"",
    "description: \"Learn multiple ways to reverse a string in Java, from traditional for loops to using StringBuilder.\"",
    "date: 2020-05-06",
    "tags: [\"java\", \"beginner\", \"tutorial\"]",
    "image: \"/images/java.jpg\""]),
  ("unnamed/part_002",
   ["title: \"Migrating from Oracle to PostgreSQL: A Practical Guide\"",
    "description: \"Lessons learned from coordinating a large-scale database migration from Oracle to PostgreSQL in an enterprise environment.\"",
    "date: 2024-09-20",
    "tags: [\"postgresql\", \"oracle\", \"database\", \"migration\"]"]),
  ("unnamed/part_003",
   ["title: \"Docker for Java Developers: From Development to Production\"",
    "description: \"Practical guide to containerizing Java applications with optimized Dockerfiles and production-ready configurations.\"",
    "date: 2022-03-25",
    "tags: [\"docker\", \"java\", \"devops\", \"containers\"]"]),
  ("unnamed/part_004",
   ["title: \"Implementing OAuth 2.0 and OpenID Connect in Enterprise Java Applications\"",
    "description: \"A practical guide to securing enterprise applications with OAuth 2.0 and OIDC, based on real-world implementation experience.\"",
    "date: 2024-11-15",
    "tags: [\"java\", \"security\", \"oauth\", \"enterprise\"]"]),
  ("unnamed/part_005",
   ["title: \"What are Resizable Arrays and ArrayList?\"",
    "description: \"Understanding dynamic arrays in Java and how ArrayList provides automatic resizing capabilities.\"",
    "date: 2020-05-14",
    "tags: [\"java\", \"basics\", \"beginner\"]"]),
  ("unnamed/part_006",
   ["title: \"Java Logging Best Practices for Production Systems\"",
    "description: \"Effective logging strategies that help you debug issues faster and monitor application health in production.\"",
    "date: 2021-06-15",
    "tags: [\"java\", \"logging\", \"monitoring\", \"best-practices\"]"])]

/-! ## Helper lemmas -/

theorem alookup_mem_keys {α : Type} (tbl : List (String × α)) (k : String)
    (h : k ∈ tbl.map Prod.fst) : ∃ v, alookup tbl k = some v := by
  induction tbl with
  | nil => simp at h
  | cons p rest ih =>
    obtain ⟨k₀, v₀⟩ := p
    by_cases hk : k₀ = k
    · exact ⟨v₀, by simp [alookup, hk]⟩
    · simp only [List.map_cons, List.mem_cons] at h
      rcases h with h | h
      · exact absurd h.symm hk
      · obtain ⟨v, hv⟩ := ih h
        exact ⟨v, by simp [alookup, hk, hv]⟩

theorem mem_of_alookup_eq_some {α : Type} (tbl : List (String × α)) (k : String)
    (v : α) (h : alookup tbl k = some v) : (k, v) ∈ tbl := by
  induction tbl with
  | nil => simp [alookup] at h
  | cons p rest ih =>
    obtain ⟨k₀, v₀⟩ := p
    by_cases hk : k₀ = k
    · simp [alookup, hk] at h
      simp [← hk, ← h]
    · simp [alookup, hk] at h
      exact List.mem_cons_of_mem _ (ih h)

theorem jsOr_some_of_ne {v : String} (h : v ≠ "") (b : Option String) :
    jsOr (some v) b = some v := by
  simp [jsOr, h]

theorem jsOr_eq_or (tbl : List (String × String))
    (hv : ∀ p ∈ tbl, p.2 ≠ "") (k : String) (b : Option String) :
    jsOr (alookup tbl k) b = (alookup tbl k).or b := by
  cases h : alookup tbl k with
  | none => rfl
  | some v =>
    have hne : v ≠ "" := hv (k, v) (mem_of_alookup_eq_some tbl k v h)
    simp [jsOr, hne, Option.or]

theorem enTable_values_ne : ∀ p ∈ enTable, p.2 ≠ "" := by decide

theorem deTable_values_ne : ∀ p ∈ deTable, p.2 ≠ "" := by decide

theorem hiTable_values_ne : ∀ p ∈ hiTable, p.2 ≠ "" := by decide

theorem locales_cases (lang : String) (h : lang ∈ locales) :
    lang = "en" ∨ lang = "de" ∨ lang = "hi" := by
  simpa [locales, translations] using h

theorem splitChar_cons_head (sep : Char) (l : List Char) :
    ∃ rs, splitChar sep l = l.takeWhile (fun c => c ≠ sep) :: rs := by
  induction l with
  | nil => exact ⟨[], rfl⟩
  | cons c rest ih =>
    obtain ⟨rs, hrs⟩ := ih
    by_cases hc : c = sep
    · exact ⟨splitChar sep rest, by simp [splitChar, hc]⟩
    · exact ⟨rs, by simp [splitChar, hc, hrs]⟩

theorem string_data_append (a b : String) : (a ++ b).data = a.data ++ b.data := by
  cases a; cases b; rfl

theorem getLangFromUrl_data (p : String) (t : List Char) (hd : p.data = '/' :: t) :
    getLangFromUrl p =
      (if (translations.map Prod.fst).contains
            (String.mk (t.takeWhile (fun c => c ≠ '/')))
       then String.mk (t.takeWhile (fun c => c ≠ '/'))
       else defaultLang) := by
  obtain ⟨rs, hrs⟩ := splitChar_cons_head '/' t
  have h0 : splitChar '/' ('/' :: t) = [] :: splitChar '/' t := by simp [splitChar]
  unfold getLangFromUrl
  rw [hd, h0, hrs]
/-! ## Claim theorems -/

/-- C1, counterexample: `useTranslations` has no key-itself last resort.  For
the locale `en` and the key `"no.such.key"`, which is absent from the active
locale's table and from the English table (they coincide for `en`), the lookup
returns JS `undefined` (`none`), not the key string itself. -/
theorem useTranslations_missing_key_returns_none :
    alookup enTable "no.such.key" = none ∧
    useTranslations "en" "no.such.key" = none ∧
    useTranslations "en" "no.such.key" ≠ some "no.such.key" := by
  refine ⟨by decide, by decide, by decide⟩

/-- C1, amended: for every locale `lang` of the translation table and every
key, `useTranslations(lang)` returns the locale's own string when the key is
present (all shipped values are non-empty), otherwise the English (default
locale) string when present there, and when the key is absent from both tables
it returns no string at all (JS `undefined`), not the key string. -/
theorem useTranslations_fallback_chain (lang key : String) (h : lang ∈ locales) :
    useTranslations lang key = (alookup (tableOf lang) key).or (alookup enTable key) := by
  rcases locales_cases lang h with h1 | h1 | h1 <;> subst h1
  · exact jsOr_eq_or enTable enTable_values_ne key _
  · exact jsOr_eq_or deTable deTable_values_ne key _
  · exact jsOr_eq_or hiTable hiTable_values_ne key _

/-- Witness for C1's amended theorem at locale `de` and key `nav.home`. -/
theorem useTranslations_fallback_chain_witness :
    useTranslations "de" "nav.home" =
      (alookup (tableOf "de") "nav.home").or (alookup enTable "nav.home") :=
  useTranslations_fallback_chain "de" "nav.home" (by decide)

/-- C2: for every locale of the table and every key of the English (default)
table, the lookup returns a non-empty string, and that string is the locale's
own translation or the default locale's. -/
theorem useTranslations_nonempty_on_en_keys (lang key : String)
    (hl : lang ∈ locales) (hk : key ∈ enTable.map Prod.fst) :
    ∃ v, useTranslations lang key = some v ∧ v ≠ "" ∧
      (alookup (tableOf lang) key = some v ∨ alookup enTable key = some v) := by
  rcases locales_cases lang hl with h1 | h1 | h1 <;> subst h1
  · obtain ⟨v, hv⟩ := alookup_mem_keys enTable key hk
    have hne : v ≠ "" := enTable_values_ne (key, v) (mem_of_alookup_eq_some _ _ _ hv)
    refine ⟨v, ?_, hne, Or.inl hv⟩
    show jsOr (alookup enTable key) (alookup enTable key) = some v
    rw [hv]
    exact jsOr_some_of_ne hne _
  · obtain ⟨v, hv⟩ := alookup_mem_keys deTable key
      (by rw [show deTable.map Prod.fst = enTable.map Prod.fst from rfl]; exact hk)
    have hne : v ≠ "" := deTable_values_ne (key, v) (mem_of_alookup_eq_some _ _ _ hv)
    refine ⟨v, ?_, hne, Or.inl hv⟩
    show jsOr (alookup deTable key) (alookup enTable key) = some v
    rw [hv]
    exact jsOr_some_of_ne hne _
  · obtain ⟨v, hv⟩ := alookup_mem_keys hiTable key
      (by rw [show hiTable.map Prod.fst = enTable.map Prod.fst from rfl]; exact hk)
    have hne : v ≠ "" := hiTable_values_ne (key, v) (mem_of_alookup_eq_some _ _ _ hv)
    refine ⟨v, ?_, hne, Or.inl hv⟩
    show jsOr (alookup hiTable key) (alookup enTable key) = some v
    rw [hv]
    exact jsOr_some_of_ne hne _

/-- Witness for C2 at locale `hi` and key `nav.home`. -/
theorem useTranslations_nonempty_on_en_keys_witness :
    ∃ v, useTranslations "hi" "nav.home" = some v ∧ v ≠ "" ∧
      (alookup (tableOf "hi") "nav.home" = some v ∨
        alookup enTable "nav.home" = some v) :=
  useTranslations_nonempty_on_en_keys "hi" "nav.home" (by decide) (by decide)

/-- C3: English (`defaultLang`) is the fallback locale of the lookup
`tbl[lang][key] || tbl[defaultLang][key]` of `useTranslations`: whenever a key
is missing from the active locale's table and present in the default locale's
table with value `w`, the lookup returns exactly `w`.  (On the shipped
`translations` object all three locales define the same key set, so this
branch is never exercised by the shipped data; the theorem proves the
fallback over the table parameter of the lookup body.) -/
theorem english_fallback_when_missing
    (tbl : List (String × List (String × String))) (lang key w : String)
    (hmiss : alookup (tableOfIn tbl lang) key = none)
    (hen : alookup (tableOfIn tbl defaultLang) key = some w) :
    useTranslationsTable tbl lang key = some w := by
  unfold useTranslationsTable
  rw [hmiss, hen]
  rfl

/-- Witness for C3: a table whose `de` locale misses the key `k` that `en`
defines. -/
theorem english_fallback_when_missing_witness :
    useTranslationsTable [("en", [("k", "Hello")]), ("de", [])] "de" "k" = some "Hello" :=
  english_fallback_when_missing [("en", [("k", "Hello")]), ("de", [])] "de" "k" "Hello"
    (by decide) (by decide)

/-- C4, counterexample: the legacy Jekyll post
`_posts/2020-05-14-resizable-arrays-arraylist.md` is a blog post document of
the repository whose front-matter block has no `date` field, so front-matter
parsing yields a null date for it. -/
theorem legacy_post_has_no_date :
    (alookup blogDocs "_posts/2020-05-14-resizable-arrays-arraylist.md").map
        (fun fm => fmLookup fm "date") = some none ∧
    (alookup blogDocs "_posts/2020-05-14-resizable-arrays-arraylist.md").map
        (fun fm => (fmLookup fm "title").isSome) = some true := by
  refine ⟨by decide, by decide⟩

/-- C4, amended: parsing the front-matter of every blog post document of the
repository yields a non-null title, and every document other than the legacy
Jekyll post `_posts/2020-05-14-resizable-arrays-arraylist.md` (whose date
lives in its file name, not its front-matter) also yields a non-null date. -/
theorem blog_front_matter_titles_and_dates :
    (blogDocs.all (fun d => (fmLookup d.2 "title").isSome) &&
      (blogDocs.filter
          (fun d => d.1 != "_posts/2020-05-14-resizable-arrays-arraylist.md")).all
        (fun d => (fmLookup d.2 "date").isSome)) = true := by
  decide

/-- C5: the slugs derived from the blog post file names (file name without its
extension) are pairwise distinct. -/
theorem blog_slugs_pairwise_distinct :
    (blogPostFilenames.map slugOf).Pairwise (fun a b => a ≠ b) := by
  decide

/-- C6: the key set of the `translations` table and the key set of the
`languages` table are both exactly `en`, `de`, `hi`. -/
theorem i18n_supports_en_de_hi :
    translations.map Prod.fst = ["en", "de", "hi"] ∧
    languages.map Prod.fst = ["en", "de", "hi"] :=
  ⟨rfl, rfl⟩

/-- C7: `getLocalizedPath` returns the path unchanged for the default locale
`en`, and prepends `/` and the language code for every other language code. -/
theorem getLocalizedPath_spec :
    (∀ path : String, getLocalizedPath path defaultLang = path) ∧
    (∀ path lang : String, lang ≠ defaultLang →
      getLocalizedPath path lang = "/" ++ lang ++ path) := by
  constructor
  · intro path
    simp [getLocalizedPath]
  · intro path lang h
    simp [getLocalizedPath, h]

/-- Witness for C7 at path `/blog` and language `de`. -/
theorem getLocalizedPath_spec_witness :
    getLocalizedPath "/blog" defaultLang = "/blog" ∧
    getLocalizedPath "/blog" "de" = "/" ++ "de" ++ "/blog" :=
  ⟨getLocalizedPath_spec.1 "/blog", getLocalizedPath_spec.2 "/blog" "de" (by decide)⟩

/-- C8: every locale table of the shipped `translations` object defines
exactly the key set of the English table, every shipped value is a non-empty
string, and consequently the English-fallback branch of `useTranslations` is
never taken: on every English key the lookup returns the active locale's own
entry. -/
theorem locale_tables_complete_no_fallback (lang : String) (h : lang ∈ locales) :
    (tableOf lang).map Prod.fst = enTable.map Prod.fst ∧
    (∀ p ∈ tableOf lang, p.2 ≠ "") ∧
    (∀ key, key ∈ enTable.map Prod.fst →
      useTranslations lang key = alookup (tableOf lang) key) := by
  rcases locales_cases lang h with h1 | h1 | h1 <;> subst h1
  · refine ⟨rfl, enTable_values_ne, fun key hk => ?_⟩
    obtain ⟨v, hv⟩ := alookup_mem_keys enTable key hk
    have hne : v ≠ "" := enTable_values_ne (key, v) (mem_of_alookup_eq_some _ _ _ hv)
    show jsOr (alookup enTable key) (alookup enTable key) = alookup enTable key
    rw [hv]
    exact jsOr_some_of_ne hne _
  · refine ⟨rfl, deTable_values_ne, fun key hk => ?_⟩
    obtain ⟨v, hv⟩ := alookup_mem_keys deTable key
      (by rw [show deTable.map Prod.fst = enTable.map Prod.fst from rfl]; exact hk)
    have hne : v ≠ "" := deTable_values_ne (key, v) (mem_of_alookup_eq_some _ _ _ hv)
    show jsOr (alookup deTable key) (alookup enTable key) = alookup deTable key
    rw [hv]
    exact jsOr_some_of_ne hne _
  · refine ⟨rfl, hiTable_values_ne, fun key hk => ?_⟩
    obtain ⟨v, hv⟩ := alookup_mem_keys hiTable key
      (by rw [show hiTable.map Prod.fst = enTable.map Prod.fst from rfl]; exact hk)
    have hne : v ≠ "" := hiTable_values_ne (key, v) (mem_of_alookup_eq_some _ _ _ hv)
    show jsOr (alookup hiTable key) (alookup enTable key) = alookup hiTable key
    rw [hv]
    exact jsOr_some_of_ne hne _

/-- Witness for C8 at locale `hi` and key `nav.home`. -/
theorem locale_tables_complete_no_fallback_witness :
    useTranslations "hi" "nav.home" = alookup (tableOf "hi") "nav.home" :=
  (locale_tables_complete_no_fallback "hi" (by decide)).2.2 "nav.home" (by decide)

/-- C9: on every URL pathname (a string starting with `/`), `getLangFromUrl`
returns the first path segment when that segment is a locale of the
translation table, and the default locale `en` in every other case (the root
pathname `/` has the empty first segment, which is not a locale). -/
theorem getLangFromUrl_first_segment (p : String) (h : p.data.head? = some '/') :
    getLangFromUrl p =
      (if locales.contains (firstSegmentSpec p) then firstSegmentSpec p
       else defaultLang) := by
  cases hd : p.data with
  | nil => rw [hd] at h; simp at h
  | cons c t =>
    rw [hd] at h
    simp only [List.head?_cons, Option.some.injEq] at h
    subst h
    rw [getLangFromUrl_data p t hd]
    have hseg : firstSegmentSpec p = String.mk (t.takeWhile (fun c => c ≠ '/')) := by
      unfold firstSegmentSpec
      rw [hd]
      rfl
    rw [hseg]
    rfl

/-- Witness for C9 at the pathname `/de/blog`. -/
theorem getLangFromUrl_first_segment_witness :
    getLangFromUrl "/de/blog" =
      (if locales.contains (firstSegmentSpec "/de/blog") then firstSegmentSpec "/de/blog"
       else defaultLang) :=
  getLangFromUrl_first_segment "/de/blog" (by decide)

/-- C10: localizing a `/`-prefixed path for a non-default locale (`de` or
`hi`) and reading the locale back through `getLangFromUrl` returns that
locale, and localizing for the default locale returns the path unchanged. -/
theorem localize_detect_round_trip :
    (∀ (p lang : String), (lang = "de" ∨ lang = "hi") → p.data.head? = some '/' →
      getLangFromUrl (getLocalizedPath p lang) = lang) ∧
    (∀ p : String, getLocalizedPath p defaultLang = p) := by
  constructor
  · intro p lang hl hp
    obtain ⟨t, hd⟩ : ∃ t, p.data = '/' :: t := by
      cases hd : p.data with
      | nil => rw [hd] at hp; simp at hp
      | cons c t =>
        rw [hd] at hp
        simp only [List.head?_cons, Option.some.injEq] at hp
        exact ⟨t, by rw [hp]⟩
    rcases hl with h1 | h1 <;> subst h1
    · have hpath : getLocalizedPath p "de" = "/de" ++ p := by
        simp [getLocalizedPath, defaultLang]
      have hdata : ("/de" ++ p).data = '/' :: 'd' :: 'e' :: p.data := by
        rw [string_data_append]
        rfl
      rw [hpath, getLangFromUrl_data ("/de" ++ p) ('d' :: 'e' :: p.data) hdata]
      rw [hd]
      have htw : (('d' : Char) :: 'e' :: '/' :: t).takeWhile (fun c => c ≠ '/') =
          ['d', 'e'] := by
        simp [List.takeWhile]
      rw [htw]
      decide
    · have hpath : getLocalizedPath p "hi" = "/hi" ++ p := by
        simp [getLocalizedPath, defaultLang]
      have hdata : ("/hi" ++ p).data = '/' :: 'h' :: 'i' :: p.data := by
        rw [string_data_append]
        rfl
      rw [hpath, getLangFromUrl_data ("/hi" ++ p) ('h' :: 'i' :: p.data) hdata]
      rw [hd]
      have htw : (('h' : Char) :: 'i' :: '/' :: t).takeWhile (fun c => c ≠ '/') =
          ['h', 'i'] := by
        simp [List.takeWhile]
      rw [htw]
      decide
  · intro p
    simp [getLocalizedPath]

/-- Witness for C10 at the path `/blog` and the locale `de`. -/
theorem localize_detect_round_trip_witness :
    getLangFromUrl (getLocalizedPath "/blog" "de") = "de" ∧
    getLocalizedPath "/blog" defaultLang = "/blog" :=
  ⟨localize_detect_round_trip.1 "/blog" "de" (Or.inl rfl) (by decide),
   localize_detect_round_trip.2 "/blog"⟩

end Site
